import Mathlib

/-!
Port mapper facade (`portmapper.go`).

A shallow embedding of the `portmapper` package.  The two gateway clients
(`goupnp` and `go-nat`) are external collaborators: every method call on a
gateway handle is answered by an environment `Env`, and every call issued is
appended to the execution trace carried by the state.  The trace also records
the value returned by each `Add` and `Delete`, so that statements about
"an earlier call returned success" can be phrased over it.
-/

namespace Portmapper

/-! ## Durations and the lease table -/

/-- A `time.Duration`: a signed count of nanoseconds. -/
abbrev Duration := Int

/-- The constant `time.Second`, in nanoseconds. -/
def Second : Duration := 1000000000

/-- The package-level map literal `portMapDuration`, as its list of entries. -/
def portMapDurationEntries : List (String × Duration) :=
  [("NAT-PMP", 365 * 86400 * Second)]

/-- The index expression `portMapDuration[key]`: the stored value, or the zero
`Duration` when the key is absent from the map. -/
def portMapDuration (key : String) : Duration :=
  match portMapDurationEntries.lookup key with
  | some d => d
  | none => 0

/-! ## Errors, gateway handles, calls -/

/-- The error values the package can return, tagged by where they are created:
`client msg` is an error value handed back by one of the gateway clients and
propagated unchanged, `noGateway` is the `errors.New` of `Discover`, and
`unknownGatewayType t` is the `fmt.Errorf` of the `default` branches. -/
inductive Error where
  | client (msg : String)
  | noGateway
  | unknownGatewayType (typ : String)
  deriving DecidableEq, Repr

/-- A `*goupnp.IGD` handle. -/
structure IGD where
  id : Nat
  deriving DecidableEq, Repr

/-- A `gonat.NAT` handle; `typ` is what its `Type()` method reports. -/
structure NAT where
  id : Nat
  typ : String
  deriving DecidableEq, Repr

/-- The dynamic type held by the `gateway interface{}` field, as seen by the
type switches: `*goupnp.IGD`, `gonat.NAT`, or anything else (the zero value
`nil` included). -/
inductive Gateway where
  | unknown
  | igd (h : IGD)
  | nat (h : NAT)
  deriving DecidableEq, Repr

/-- A method call on the gateway handle, with its arguments. -/
inductive Call where
  | igdExternalIP
  | igdForward (port : Nat) (description : String)
  | igdClear (port : Nat)
  | natGetExternalAddress
  | natAddPortMapping (protocol : String) (internalPort externalPort : Int)
      (description : String) (timeout : Duration)
  | natDeletePortMapping (protocol : String) (internalPort : Int)
  deriving DecidableEq, Repr

/-- What is observable of an execution: the gateway calls issued and the values
returned by `Add` and `Delete`. -/
inductive Event where
  | call (c : Call)
  | addReturned (port : Nat) (err : Option Error)
  | deleteReturned (port : Nat) (err : Option Error)
  deriving DecidableEq, Repr

/-- The answer of a gateway client to one call: its error result (`none` is
`nil`), and the string or address result for the two query methods. -/
structure Reply where
  err : Option String
  text : String
  addr : List Nat
  deriving DecidableEq, Repr

/-- The external collaborators: `respond` answers a gateway call given
everything that happened before it, `ipString` is `net.IP.String`. -/
structure Env where
  respond : List Event → Call → Reply
  ipString : List Nat → String

/-! ## The registry (`sync.Map` keyed by `uint16`) -/

/-- The contents of the `portsMapped` map. -/
abbrev SyncMap := List (Nat × String)

/-- The method `sync.Map.Load`. -/
def SyncMap.Load (m : SyncMap) (key : Nat) : Option String :=
  m.lookup key

/-- The method `sync.Map.Delete`. -/
def SyncMap.Delete (m : SyncMap) (key : Nat) : SyncMap :=
  m.filter (fun kv => kv.1 != key)

/-- The method `sync.Map.Store`. -/
def SyncMap.Store (m : SyncMap) (key : Nat) (value : String) : SyncMap :=
  (key, value) :: SyncMap.Delete m key

/-- The method `sync.Map.Range` over the keys `order` it was about to visit:
an entry that is gone when its turn comes is skipped, and the traversal stops
as soon as the callback returns `false`.  `load` reads the map out of the
state `σ` the callback works on. -/
def SyncMap.Range {σ : Type} (load : σ → Nat → Option String)
    (f : Nat → String → σ → Bool × σ) : List Nat → σ → σ
  | [], st => st
  | key :: rest, st =>
    match load st key with
    | none => SyncMap.Range load f rest st
    | some value =>
      match f key value st with
      | (true, st1) => SyncMap.Range load f rest st1
      | (false, st1) => st1

/-! ## The port mapper -/

/-- The struct `PortMapper`. -/
structure PortMapper where
  gateway : Gateway
  gatewayType : String
  portsMapped : SyncMap
  deriving DecidableEq, Repr

/-- A port mapper together with the trace of the execution so far. -/
structure State where
  pm : PortMapper
  trace : List Event
  deriving DecidableEq, Repr

/-- The zero value `&PortMapper{}`. -/
def PortMapper.zero : PortMapper :=
  { gateway := Gateway.unknown, gatewayType := "", portsMapped := [] }

/-- The function `Discover`, given the results of `goupnp.Discover()` and of
`gonat.DiscoverGateway()`; the result is the Go pair `(*PortMapper, error)`,
`none` standing for `nil`. -/
def Discover (upnp : Except String IGD) (pmp : Except String NAT) :
    Option PortMapper × Option Error :=
  let pm := PortMapper.zero
  match upnp with
  | Except.ok goupnpGateway =>
    (some { pm with gateway := Gateway.igd goupnpGateway, gatewayType := "UPnP" }, none)
  | Except.error _ =>
    match pmp with
    | Except.ok gonatGateway =>
      (some { pm with gateway := Gateway.nat gonatGateway, gatewayType := gonatGateway.typ }, none)
    | Except.error _ => (none, some Error.noGateway)

/-- The method `Type`. -/
def PortMapper.TypeName (pm : PortMapper) : String :=
  pm.gatewayType

/-- Issue one gateway call: ask the environment and append the call to the trace. -/
def gatewayCall (env : Env) (s : State) (c : Call) : Reply × State :=
  (env.respond s.trace c, { s with trace := s.trace ++ [Event.call c] })

/-- The error result of a gateway call as a Go `error` value. -/
def Reply.error (r : Reply) : Option Error :=
  r.err.map Error.client

/-- The method `ExternalIP`: the returned pair `(string, error)` and the state after. -/
def ExternalIP (env : Env) (s : State) : (String × Option Error) × State :=
  match s.pm.gateway with
  | Gateway.igd _ =>
    let (r, s1) := gatewayCall env s Call.igdExternalIP
    ((r.text, r.error), s1)
  | Gateway.nat _ =>
    let (r, s1) := gatewayCall env s Call.natGetExternalAddress
    ((env.ipString r.addr, r.error), s1)
  | Gateway.unknown =>
    (("", some (Error.unknownGatewayType s.pm.TypeName)), s)

/-- The body of the method `Add`. -/
def Add.body (env : Env) (s : State) (port : Nat) (description : String) :
    Option Error × State :=
  let stored (s1 : State) : Option Error × State :=
    (none, { s1 with pm := { s1.pm with
      portsMapped := SyncMap.Store s1.pm.portsMapped port description } })
  match s.pm.gateway with
  | Gateway.igd _ =>
    let (r, s1) := gatewayCall env s (Call.igdForward port description)
    match r.error with
    | some err => (some err, s1)
    | none => stored s1
  | Gateway.nat _ =>
    let (r, s1) := gatewayCall env s
      (Call.natAddPortMapping "tcp" (port : Int) (port : Int) description
        (portMapDuration s.pm.TypeName))
    match r.error with
    | some err => (some err, s1)
    | none =>
      let (r2, s2) := gatewayCall env s1
        (Call.natAddPortMapping "udp" (port : Int) (port : Int) description
          (portMapDuration s1.pm.TypeName))
      match r2.error with
      | some err => (some err, s2)
      | none => stored s2
  | Gateway.unknown =>
    (some (Error.unknownGatewayType s.pm.TypeName), s)

/-- The method `Add`; its return value is recorded in the trace. -/
def Add (env : Env) (s : State) (port : Nat) (description : String) :
    Option Error × State :=
  let (err, s1) := Add.body env s port description
  (err, { s1 with trace := s1.trace ++ [Event.addReturned port err] })

/-- The body of the method `Delete`. -/
def Delete.body (env : Env) (s : State) (port : Nat) : Option Error × State :=
  let deleted (s1 : State) : Option Error × State :=
    (none, { s1 with pm := { s1.pm with
      portsMapped := SyncMap.Delete s1.pm.portsMapped port } })
  match s.pm.gateway with
  | Gateway.igd _ =>
    let (r, s1) := gatewayCall env s (Call.igdClear port)
    match r.error with
    | some err => (some err, s1)
    | none => deleted s1
  | Gateway.nat _ =>
    let (r, s1) := gatewayCall env s (Call.natDeletePortMapping "tcp" (port : Int))
    match r.error with
    | some err => (some err, s1)
    | none =>
      let (r2, s2) := gatewayCall env s1 (Call.natDeletePortMapping "udp" (port : Int))
      match r2.error with
      | some err => (some err, s2)
      | none => deleted s2
  | Gateway.unknown =>
    (some (Error.unknownGatewayType s.pm.TypeName), s)

/-- The method `Delete`; its return value is recorded in the trace. -/
def Delete (env : Env) (s : State) (port : Nat) : Option Error × State :=
  let (err, s1) := Delete.body env s port
  (err, { s1 with trace := s1.trace ++ [Event.deleteReturned port err] })

/-- The function literal passed to `Range` by `DeleteAll`.  It works on the
captured variable `err` and the state; every key of the map is a `uint16`, so
the type assertion `key.(uint16)` succeeds. -/
def DeleteAll.callback (env : Env) (key : Nat) (_value : String)
    (st : Option Error × State) : Bool × (Option Error × State) :=
  let (err, s1) := Delete env st.2 key
  match err with
  | some e => (false, (some e, s1))
  | none => (true, (none, s1))

/-- The method `DeleteAll`; `order` is the order in which `Range` visits the keys. -/
def DeleteAll (env : Env) (s : State) (order : List Nat) : Option Error × State :=
  SyncMap.Range (fun st key => SyncMap.Load st.2.pm.portsMapped key)
    (DeleteAll.callback env) order (none, s)

/-- The method `IsPortMapped`. -/
def IsPortMapped (pm : PortMapper) (port : Nat) : Bool :=
  match SyncMap.Load pm.portsMapped port with
  | some _ => true
  | none => false

/-! ## Sequences of calls -/

/-- One call on the public surface of a port mapper. -/
inductive Op where
  | typeName
  | externalIP
  | add (port : Nat) (description : String)
  | delete (port : Nat)
  | deleteAll (order : List Nat)
  | isPortMapped (port : Nat)
  deriving DecidableEq, Repr

/-- The state after one call. -/
def step (env : Env) (s : State) : Op → State
  | Op.typeName => s
  | Op.externalIP => (ExternalIP env s).2
  | Op.add port description => (Add env s port description).2
  | Op.delete port => (Delete env s port).2
  | Op.deleteAll order => (DeleteAll env s order).2
  | Op.isPortMapped _ => s

/-- The state after a sequence of calls. -/
def run (env : Env) (s : State) (ops : List Op) : State :=
  ops.foldl (step env) s

/-- The state right after discovery returned `pm`. -/
def State.init (pm : PortMapper) : State :=
  { pm := pm, trace := [] }

/-! ## Reading a trace -/

/-- The gateway calls of a trace, in order. -/
def calls : List Event → List Call
  | [] => []
  | Event.call c :: rest => c :: calls rest
  | _ :: rest => calls rest

/-- The gateway calls issued between the state `before` and the later state `after`. -/
def issued (before after : State) : List Call :=
  calls (after.trace.drop before.trace.length)

/-- The ports of the `Delete` invocations of a trace, in order (each invocation
records its return). -/
def deletesOf : List Event → List Nat
  | [] => []
  | Event.deleteReturned port _ :: rest => port :: deletesOf rest
  | _ :: rest => deletesOf rest

/-- Port `p` is mapped according to the history: some `Add` of `p` returned
success, and after the most recent such `Add` no `Delete` of `p` returned
success. -/
def MappedByHistory (trace : List Event) (p : Nat) : Prop :=
  ∃ earlier later, trace = earlier ++ Event.addReturned p none :: later ∧
    Event.addReturned p none ∉ later ∧ Event.deleteReturned p none ∉ later

/-- The registry agrees with the history. -/
def Consistent (s : State) : Prop :=
  ∀ p, IsPortMapped s.pm p = true ↔ MappedByHistory s.trace p

/-- Calling `Delete` on the ports `ps` one after the other from state `s`, every
call returns success and the state reached is `s1`. -/
def DeletesSucceed (env : Env) : State → List Nat → State → Prop
  | s, [], s1 => s1 = s
  | s, p :: ps, s1 =>
    (Delete env s p).1 = none ∧ DeletesSucceed env (Delete env s p).2 ps s1

/-! ## Sample gateways -/

/-- A reply without error. -/
def replyOk : Reply :=
  { err := none, text := "203.0.113.7", addr := [203, 0, 113, 42] }

/-- A reply carrying the error `msg`. -/
def replyErr (msg : String) : Reply :=
  { err := some msg, text := "", addr := [] }

/-- A gateway on which every call succeeds. -/
def envOk : Env :=
  { respond := fun _ _ => replyOk, ipString := fun _ => "203.0.113.42" }

/-- A gateway that refuses every call. -/
def envRefuse : Env :=
  { respond := fun _ _ => replyErr "router refused", ipString := fun _ => "<nil>" }

/-- A gateway that accepts the first call made on it and refuses every later one. -/
def envAcceptsOnce : Env :=
  { respond := fun tr _ =>
      match tr with
      | [] => replyOk
      | _ :: _ => replyErr "router refused",
    ipString := fun _ => "203.0.113.42" }

/-- A gateway on which the UDP half of every NAT-PMP request fails. -/
def envUdpFails : Env :=
  { respond := fun _ c =>
      match c with
      | Call.natAddPortMapping "udp" _ _ _ _ => replyErr "udp refused"
      | Call.natDeletePortMapping "udp" _ => replyErr "udp refused"
      | _ => replyOk,
    ipString := fun _ => "203.0.113.42" }

/-- A gateway whose `Clear` fails for port 1001 only. -/
def envClear1001Fails : Env :=
  { respond := fun _ c =>
      match c with
      | Call.igdClear 1001 => replyErr "clear failed"
      | _ => replyOk,
    ipString := fun _ => "203.0.113.42" }

/-- The port mapper discovered on a UPnP gateway. -/
def upnpMapper : PortMapper :=
  { gateway := Gateway.igd { id := 1 }, gatewayType := "UPnP", portsMapped := [] }

/-- The port mapper discovered on a gateway whose client reports `"NAT-PMP"`. -/
def natpmpMapper : PortMapper :=
  { gateway := Gateway.nat { id := 2, typ := "NAT-PMP" }, gatewayType := "NAT-PMP",
    portsMapped := [] }

/-- The port mapper discovered on a gateway whose client reports `"PCP"`. -/
def pcpMapper : PortMapper :=
  { gateway := Gateway.nat { id := 3, typ := "PCP" }, gatewayType := "PCP",
    portsMapped := [] }

/-- A UPnP mapper with port 8333 mapped. -/
def upnpWith8333 : State :=
  { pm := { upnpMapper with portsMapped := [(8333, "node")] }, trace := [] }

/-- A UPnP mapper with ports 8333 and 8334 mapped. -/
def upnpWithTwo : State :=
  { pm := { upnpMapper with portsMapped := [(8333, "node"), (8334, "rpc")] }, trace := [] }

/-- A NAT-PMP mapper with port 51820 mapped. -/
def natpmpWith51820 : State :=
  { pm := { natpmpMapper with portsMapped := [(51820, "wg")] }, trace := [] }

/-- A UPnP mapper with ports 1000, 1001 and 1002 mapped (scenario S4). -/
def upnpWithThree : State :=
  { pm := { upnpMapper with portsMapped := [(1000, "a"), (1001, "b"), (1002, "c")] },
    trace := [] }

/-! ## The registry as a finite map -/

theorem Load_Delete (m : SyncMap) (p q : Nat) :
    SyncMap.Load (SyncMap.Delete m p) q = if q = p then none else SyncMap.Load m q := by
  induction m with
  | nil => simp [SyncMap.Load, SyncMap.Delete]
  | cons kv m ih =>
    obtain ⟨k, v⟩ := kv
    simp only [SyncMap.Load, SyncMap.Delete] at ih ⊢
    by_cases hk : k = p
    · subst hk
      by_cases hq : q = k
      · subst hq; simpa [List.filter_cons, List.lookup_cons] using ih
      · have : (q == k) = false := by simpa using hq
        simpa [List.filter_cons, List.lookup_cons, this, hq] using ih
    · have hk2 : (k != p) = true := by simpa using hk
      rw [List.filter_cons, if_pos hk2]
      by_cases hq : q = k
      · subst hq; simp [List.lookup_cons, hk]
      · have : (q == k) = false := by simpa using hq
        simp only [List.lookup_cons, this]
        exact ih

theorem Load_Store (m : SyncMap) (p q : Nat) (v : String) :
    SyncMap.Load (SyncMap.Store m p v) q = if q = p then some v else SyncMap.Load m q := by
  by_cases hq : q = p
  · subst hq; simp [SyncMap.Store, SyncMap.Load, List.lookup_cons]
  · have : (q == p) = false := by simpa using hq
    have h2 := Load_Delete m p q
    simp only [SyncMap.Load] at h2
    simp [SyncMap.Store, SyncMap.Load, List.lookup_cons, this, hq, h2]

theorem Delete_absent (m : SyncMap) (p : Nat) (h : SyncMap.Load m p = none) :
    SyncMap.Delete m p = m := by
  induction m with
  | nil => rfl
  | cons kv m ih =>
    obtain ⟨k, v⟩ := kv
    simp only [SyncMap.Load, SyncMap.Delete] at ih h ⊢
    by_cases hk : p = k
    · subst hk; simp [List.lookup_cons] at h
    · have hb : (p == k) = false := by simpa using hk
      simp only [List.lookup_cons, hb] at h
      have hk2 : (k != p) = true := by simpa using fun e => hk e.symm
      rw [List.filter_cons, if_pos hk2, ih h]

theorem IsPortMapped_eq (pm : PortMapper) (p : Nat) :
    IsPortMapped pm p = (SyncMap.Load pm.portsMapped p).isSome := by
  unfold IsPortMapped
  cases SyncMap.Load pm.portsMapped p <;> rfl

/-- The constant expression `365 * 86400 * time.Second` fits an `int64`. -/
theorem portMapDuration_fits_int64 :
    (365 * 86400 * Second : Int) = 31536000 * Second ∧ 31536000 * Second < 2 ^ 63 := by
  decide

theorem portMapDuration_eq (key : String) :
    portMapDuration key = (if key = "NAT-PMP" then 31536000 * Second else 0) := by
  by_cases hk : key = "NAT-PMP"
  · subst hk; decide
  · have hb : (key == "NAT-PMP") = false := by simpa using hk
    simp [portMapDuration, portMapDurationEntries, List.lookup_cons, hb, hk]

/-! ## Normal forms of `Add` and `Delete` -/

theorem Add_igd (env : Env) (s : State) (h : IGD) (port : Nat) (description : String)
    (hg : s.pm.gateway = Gateway.igd h) :
    Add env s port description =
      match (env.respond s.trace (Call.igdForward port description)).err with
      | some msg => (some (Error.client msg),
          { pm := s.pm,
            trace := s.trace ++ [Event.call (Call.igdForward port description),
              Event.addReturned port (some (Error.client msg))] })
      | none => (none,
          { pm := { s.pm with portsMapped := SyncMap.Store s.pm.portsMapped port description },
            trace := s.trace ++ [Event.call (Call.igdForward port description),
              Event.addReturned port none] }) := by
  simp only [Add, Add.body, hg, gatewayCall, Reply.error]
  cases (env.respond s.trace (Call.igdForward port description)).err <;> simp

theorem Add_nat (env : Env) (s : State) (h : NAT) (port : Nat) (description : String)
    (hg : s.pm.gateway = Gateway.nat h) :
    Add env s port description =
      let tcp := Call.natAddPortMapping "tcp" port port description
        (portMapDuration s.pm.gatewayType)
      let udp := Call.natAddPortMapping "udp" port port description
        (portMapDuration s.pm.gatewayType)
      match (env.respond s.trace tcp).err with
      | some msg => (some (Error.client msg),
          { pm := s.pm,
            trace := s.trace ++ [Event.call tcp,
              Event.addReturned port (some (Error.client msg))] })
      | none =>
        match (env.respond (s.trace ++ [Event.call tcp]) udp).err with
        | some msg => (some (Error.client msg),
            { pm := s.pm,
              trace := s.trace ++ [Event.call tcp, Event.call udp,
                Event.addReturned port (some (Error.client msg))] })
        | none => (none,
            { pm := { s.pm with
                portsMapped := SyncMap.Store s.pm.portsMapped port description },
              trace := s.trace ++ [Event.call tcp, Event.call udp,
                Event.addReturned port none] }) := by
  simp only [Add, Add.body, hg, gatewayCall, Reply.error, PortMapper.TypeName]
  cases (env.respond s.trace (Call.natAddPortMapping "tcp" port port description
    (portMapDuration s.pm.gatewayType))).err
  · cases (env.respond (s.trace ++ [Event.call (Call.natAddPortMapping "tcp" port port
      description (portMapDuration s.pm.gatewayType))])
      (Call.natAddPortMapping "udp" port port description
        (portMapDuration s.pm.gatewayType))).err <;> simp
  · simp

theorem Add_unknown (env : Env) (s : State) (port : Nat) (description : String)
    (hg : s.pm.gateway = Gateway.unknown) :
    Add env s port description =
      (some (Error.unknownGatewayType s.pm.gatewayType),
        { pm := s.pm,
          trace := s.trace ++
            [Event.addReturned port (some (Error.unknownGatewayType s.pm.gatewayType))] }) := by
  simp only [Add, Add.body, hg, PortMapper.TypeName]

theorem Delete_igd (env : Env) (s : State) (h : IGD) (port : Nat)
    (hg : s.pm.gateway = Gateway.igd h) :
    Delete env s port =
      match (env.respond s.trace (Call.igdClear port)).err with
      | some msg => (some (Error.client msg),
          { pm := s.pm,
            trace := s.trace ++ [Event.call (Call.igdClear port),
              Event.deleteReturned port (some (Error.client msg))] })
      | none => (none,
          { pm := { s.pm with portsMapped := SyncMap.Delete s.pm.portsMapped port },
            trace := s.trace ++ [Event.call (Call.igdClear port),
              Event.deleteReturned port none] }) := by
  simp only [Delete, Delete.body, hg, gatewayCall, Reply.error]
  cases (env.respond s.trace (Call.igdClear port)).err <;> simp

theorem Delete_nat (env : Env) (s : State) (h : NAT) (port : Nat)
    (hg : s.pm.gateway = Gateway.nat h) :
    Delete env s port =
      let tcp := Call.natDeletePortMapping "tcp" port
      let udp := Call.natDeletePortMapping "udp" port
      match (env.respond s.trace tcp).err with
      | some msg => (some (Error.client msg),
          { pm := s.pm,
            trace := s.trace ++ [Event.call tcp,
              Event.deleteReturned port (some (Error.client msg))] })
      | none =>
        match (env.respond (s.trace ++ [Event.call tcp]) udp).err with
        | some msg => (some (Error.client msg),
            { pm := s.pm,
              trace := s.trace ++ [Event.call tcp, Event.call udp,
                Event.deleteReturned port (some (Error.client msg))] })
        | none => (none,
            { pm := { s.pm with portsMapped := SyncMap.Delete s.pm.portsMapped port },
              trace := s.trace ++ [Event.call tcp, Event.call udp,
                Event.deleteReturned port none] }) := by
  simp only [Delete, Delete.body, hg, gatewayCall, Reply.error]
  cases (env.respond s.trace (Call.natDeletePortMapping "tcp" port)).err
  · cases (env.respond (s.trace ++ [Event.call (Call.natDeletePortMapping "tcp" port)])
      (Call.natDeletePortMapping "udp" port)).err <;> simp
  · simp

theorem Delete_unknown (env : Env) (s : State) (port : Nat)
    (hg : s.pm.gateway = Gateway.unknown) :
    Delete env s port =
      (some (Error.unknownGatewayType s.pm.gatewayType),
        { pm := s.pm,
          trace := s.trace ++
            [Event.deleteReturned port (some (Error.unknownGatewayType s.pm.gatewayType))] }) := by
  simp only [Delete, Delete.body, hg, PortMapper.TypeName]

/-! ## The effect of one call on the port mapper and on the trace -/

theorem Add_effect (env : Env) (s : State) (port : Nat) (description : String) :
    ∃ cs : List Call,
      (Add env s port description).2.trace =
        s.trace ++ cs.map Event.call ++
          [Event.addReturned port (Add env s port description).1] ∧
      (Add env s port description).2.pm =
        (if (Add env s port description).1 = none
          then { s.pm with portsMapped := SyncMap.Store s.pm.portsMapped port description }
          else s.pm) := by
  cases hg : s.pm.gateway with
  | unknown =>
    rw [Add_unknown env s port description hg]
    exact ⟨[], by simp, by simp⟩
  | igd h =>
    rw [Add_igd env s h port description hg]
    cases (env.respond s.trace (Call.igdForward port description)).err with
    | none => exact ⟨[Call.igdForward port description], by simp, by simp⟩
    | some msg => exact ⟨[Call.igdForward port description], by simp, by simp⟩
  | nat h =>
    rw [Add_nat env s h port description hg]
    simp only
    cases (env.respond s.trace (Call.natAddPortMapping "tcp" port port description
      (portMapDuration s.pm.gatewayType))).err with
    | some msg => exact ⟨[Call.natAddPortMapping "tcp" port port description (portMapDuration s.pm.gatewayType)],
      by simp, by simp⟩
    | none =>
      cases (env.respond (s.trace ++ [Event.call (Call.natAddPortMapping "tcp" port port
        description (portMapDuration s.pm.gatewayType))])
        (Call.natAddPortMapping "udp" port port description
          (portMapDuration s.pm.gatewayType))).err with
      | some msg => exact ⟨[Call.natAddPortMapping "tcp" port port description (portMapDuration s.pm.gatewayType),
        Call.natAddPortMapping "udp" port port description (portMapDuration s.pm.gatewayType)],
        by simp, by simp⟩
      | none => exact ⟨[Call.natAddPortMapping "tcp" port port description (portMapDuration s.pm.gatewayType),
        Call.natAddPortMapping "udp" port port description (portMapDuration s.pm.gatewayType)],
        by simp, by simp⟩

theorem Delete_effect (env : Env) (s : State) (port : Nat) :
    ∃ cs : List Call,
      (Delete env s port).2.trace =
        s.trace ++ cs.map Event.call ++ [Event.deleteReturned port (Delete env s port).1] ∧
      (Delete env s port).2.pm =
        (if (Delete env s port).1 = none
          then { s.pm with portsMapped := SyncMap.Delete s.pm.portsMapped port }
          else s.pm) := by
  cases hg : s.pm.gateway with
  | unknown =>
    rw [Delete_unknown env s port hg]
    exact ⟨[], by simp, by simp⟩
  | igd h =>
    rw [Delete_igd env s h port hg]
    cases (env.respond s.trace (Call.igdClear port)).err with
    | none => exact ⟨[Call.igdClear port], by simp, by simp⟩
    | some msg => exact ⟨[Call.igdClear port], by simp, by simp⟩
  | nat h =>
    rw [Delete_nat env s h port hg]
    simp only
    cases (env.respond s.trace (Call.natDeletePortMapping "tcp" port)).err with
    | some msg => exact ⟨[Call.natDeletePortMapping "tcp" port], by simp, by simp⟩
    | none =>
      cases (env.respond (s.trace ++ [Event.call (Call.natDeletePortMapping "tcp" port)])
        (Call.natDeletePortMapping "udp" port)).err with
      | some msg => exact ⟨[Call.natDeletePortMapping "tcp" port, Call.natDeletePortMapping "udp" port],
        by simp, by simp⟩
      | none => exact ⟨[Call.natDeletePortMapping "tcp" port, Call.natDeletePortMapping "udp" port],
        by simp, by simp⟩

theorem ExternalIP_effect (env : Env) (s : State) :
    ∃ cs : List Call,
      (ExternalIP env s).2.trace = s.trace ++ cs.map Event.call ∧
      (ExternalIP env s).2.pm = s.pm := by
  unfold ExternalIP
  cases s.pm.gateway with
  | unknown => exact ⟨[], by simp, rfl⟩
  | igd h => exact ⟨[Call.igdExternalIP], by simp [gatewayCall], rfl⟩
  | nat h => exact ⟨[Call.natGetExternalAddress], by simp [gatewayCall], rfl⟩

theorem Delete_ok_pm (env : Env) (s : State) (port : Nat)
    (h : (Delete env s port).1 = none) :
    (Delete env s port).2.pm =
      { s.pm with portsMapped := SyncMap.Delete s.pm.portsMapped port } := by
  obtain ⟨cs, _, hpm⟩ := Delete_effect env s port
  rw [hpm, if_pos h]

theorem Delete_err_pm (env : Env) (s : State) (port : Nat) (e : Error)
    (h : (Delete env s port).1 = some e) :
    (Delete env s port).2.pm = s.pm := by
  obtain ⟨cs, _, hpm⟩ := Delete_effect env s port
  rw [hpm, if_neg (by simp [h])]

theorem deletesOf_append (a b : List Event) :
    deletesOf (a ++ b) = deletesOf a ++ deletesOf b := by
  induction a with
  | nil => rfl
  | cons ev a ih => cases ev <;> simp [deletesOf, ih]

theorem deletesOf_calls (cs : List Call) : deletesOf (cs.map Event.call) = [] := by
  induction cs with
  | nil => rfl
  | cons c cs ih => simpa [deletesOf] using ih

theorem Delete_deletesOf (env : Env) (s : State) (port : Nat) :
    deletesOf (Delete env s port).2.trace = deletesOf s.trace ++ [port] := by
  obtain ⟨cs, htr, _⟩ := Delete_effect env s port
  rw [htr, deletesOf_append, deletesOf_append, deletesOf_calls]
  simp [deletesOf]

/-! ## Unfolding `DeleteAll` -/

theorem DeleteAll_nil (env : Env) (s : State) : DeleteAll env s [] = (none, s) := rfl

theorem DeleteAll_cons (env : Env) (s : State) (port : Nat) (rest : List Nat) :
    DeleteAll env s (port :: rest) =
      match SyncMap.Load s.pm.portsMapped port with
      | none => DeleteAll env s rest
      | some _ =>
        match (Delete env s port).1 with
        | some e => (some e, (Delete env s port).2)
        | none => DeleteAll env (Delete env s port).2 rest := by
  simp only [DeleteAll, SyncMap.Range, DeleteAll.callback]
  cases SyncMap.Load s.pm.portsMapped port with
  | none => rfl
  | some v =>
    simp only
    cases hd : Delete env s port with
    | mk err s1 =>
      cases err with
      | none => rfl
      | some e => rfl

/-- A property of states kept by every `Delete` is kept by `DeleteAll`. -/
theorem DeleteAll_keeps (env : Env) (P : State → Prop)
    (hD : ∀ s port, P s → P (Delete env s port).2) (order : List Nat) :
    ∀ s, P s → P (DeleteAll env s order).2 := by
  induction order with
  | nil => intro s hs; exact hs
  | cons port rest ih =>
    intro s hs
    rw [DeleteAll_cons]
    cases SyncMap.Load s.pm.portsMapped port with
    | none => exact ih s hs
    | some v =>
      simp only
      cases hd : (Delete env s port).1 with
      | none => exact ih _ (hD s port hs)
      | some e => exact hD s port hs

/-! ## Removing several ports -/

theorem Load_foldl_Delete (ps : List Nat) :
    ∀ (m : SyncMap) (q : Nat),
      SyncMap.Load (ps.foldl SyncMap.Delete m) q =
        if q ∈ ps then none else SyncMap.Load m q := by
  induction ps with
  | nil => intro m q; simp
  | cons p ps ih =>
    intro m q
    rw [List.foldl_cons, ih, Load_Delete]
    by_cases h1 : q ∈ ps
    · simp [h1]
    · by_cases h2 : q = p
      · simp [h2]
      · simp [h1, h2]

theorem Load_of_mem (m : SyncMap) (k : Nat) (v : String) (h : (k, v) ∈ m) :
    (SyncMap.Load m k).isSome = true := by
  induction m with
  | nil => simp at h
  | cons kv m ih =>
    obtain ⟨k1, v1⟩ := kv
    simp only [SyncMap.Load] at ih ⊢
    by_cases hk : k = k1
    · subst hk; simp [List.lookup_cons]
    · have hb : (k == k1) = false := by simpa using hk
      simp only [List.lookup_cons, hb]
      apply ih
      rcases List.mem_cons.mp h with h1 | h1
      · exact absurd (congrArg Prod.fst h1) hk
      · exact h1

theorem foldl_Delete_eq_nil (ps : List Nat) :
    ∀ m : SyncMap, (∀ kv ∈ m, kv.1 ∈ ps) → ps.foldl SyncMap.Delete m = [] := by
  induction ps with
  | nil =>
    intro m h
    cases m with
    | nil => rfl
    | cons kv m => simpa using h kv (List.mem_cons_self _ _)
  | cons p ps ih =>
    intro m h
    rw [List.foldl_cons]
    apply ih
    intro kv hkv
    have hm := List.mem_filter.mp hkv
    have hne : kv.1 ≠ p := by simpa using hm.2
    rcases List.mem_cons.mp (h kv hm.1) with h1 | h1
    · exact absurd h1 hne
    · exact h1

/-- Successful deletes of mapped, pairwise distinct ports are what `DeleteAll`
does first; they remove exactly those ports. -/
theorem DeleteAll_after_successes (env : Env) (visited : List Nat) :
    ∀ (s s1 : State) (rest : List Nat),
      (∀ q ∈ visited ++ rest, IsPortMapped s.pm q = true) →
      (visited ++ rest).Nodup →
      DeletesSucceed env s visited s1 →
      DeleteAll env s (visited ++ rest) = DeleteAll env s1 rest ∧
      s1.pm = { s.pm with portsMapped := visited.foldl SyncMap.Delete s.pm.portsMapped } ∧
      deletesOf s1.trace = deletesOf s.trace ++ visited := by
  induction visited with
  | nil =>
    intro s s1 rest _ _ hs
    simp only [DeletesSucceed] at hs
    subst hs
    simp
  | cons p vs ih =>
    intro s s1 rest hmap hnd hs
    obtain ⟨hok, hrest⟩ := hs
    have hp : IsPortMapped s.pm p = true := hmap p (by simp)
    have hpm := Delete_ok_pm env s p hok
    have hnd2 : (p :: (vs ++ rest)).Nodup := by simpa using hnd
    have hmap2 : ∀ q ∈ vs ++ rest, IsPortMapped (Delete env s p).2.pm q = true := by
      intro q hq
      have hqp : q ≠ p := fun e => (List.nodup_cons.mp hnd2).1 (e ▸ hq)
      have hq0 := hmap q (by simp at hq ⊢; tauto)
      rw [IsPortMapped_eq] at hq0 ⊢
      rw [hpm]
      simpa [Load_Delete, hqp] using hq0
    obtain ⟨h1, h2, h3⟩ := ih (Delete env s p).2 s1 rest hmap2 (List.nodup_cons.mp hnd2).2 hrest
    refine ⟨?_, ?_, ?_⟩
    · rw [List.cons_append, DeleteAll_cons]
      rw [IsPortMapped_eq] at hp
      cases hl : SyncMap.Load s.pm.portsMapped p with
      | none => simp [hl] at hp
      | some v =>
        simp only [hok]
        exact h1
    · rw [h2, hpm]
      simp
    · rw [h3, Delete_deletesOf]
      simp

theorem DeletesSucceed_or_fails (env : Env) (order : List Nat) :
    ∀ s : State,
      (∃ s1, DeletesSucceed env s order s1) ∨
      (∃ visited pk rest s1 e, order = visited ++ pk :: rest ∧
        DeletesSucceed env s visited s1 ∧ (Delete env s1 pk).1 = some e) := by
  induction order with
  | nil => intro s; exact Or.inl ⟨s, rfl⟩
  | cons p ps ih =>
    intro s
    cases hd : (Delete env s p).1 with
    | some e => exact Or.inr ⟨[], p, ps, s, e, rfl, rfl, hd⟩
    | none =>
      rcases ih (Delete env s p).2 with ⟨s1, h1⟩ | ⟨visited, pk, rest, s1, e, h1, h2, h3⟩
      · exact Or.inl ⟨s1, hd, h1⟩
      · exact Or.inr ⟨p :: visited, pk, rest, s1, e, by simp [h1], ⟨hd, h2⟩, h3⟩

/-! ## The history read off a trace -/

theorem MappedByHistory_nil (p : Nat) : ¬ MappedByHistory [] p := by
  rintro ⟨earlier, later, h, _, _⟩
  cases earlier <;> simp at h

theorem MappedByHistory_snoc (tr : List Event) (ev : Event) (p : Nat) :
    MappedByHistory (tr ++ [ev]) p ↔
      ev = Event.addReturned p none ∨
        (ev ≠ Event.deleteReturned p none ∧ MappedByHistory tr p) := by
  constructor
  · rintro ⟨earlier, later, heq, hadd, hdel⟩
    rcases List.eq_nil_or_concat later with hl | ⟨l1, x, hl⟩
    · subst hl
      have h2 := List.append_inj_right' heq (by simp)
      left
      simpa using h2
    · subst hl
      have heq2 : tr ++ [ev] = (earlier ++ Event.addReturned p none :: l1) ++ [x] := by
        rw [heq]; simp
      have h1 := List.append_inj_left' heq2 (by simp)
      have h2 := List.append_inj_right' heq2 (by simp)
      have hx : ev = x := by simpa using h2
      subst hx
      right
      refine ⟨?_, earlier, l1, h1, ?_, ?_⟩
      · intro hc
        exact hdel (by simp [hc])
      · intro hc
        exact hadd (by simp [hc])
      · intro hc
        exact hdel (by simp [hc])
  · rintro (h | ⟨hne, earlier, later, heq, hadd, hdel⟩)
    · subst h
      exact ⟨tr, [], rfl, by simp, by simp⟩
    · by_cases hev : ev = Event.addReturned p none
      · subst hev
        exact ⟨tr, [], rfl, by simp, by simp⟩
      · refine ⟨earlier, later ++ [ev], by rw [heq]; simp, ?_, ?_⟩
        · intro hc
          rcases List.mem_append.mp hc with h1 | h1
          · exact hadd h1
          · exact hev (List.mem_singleton.mp h1).symm
        · intro hc
          rcases List.mem_append.mp hc with h1 | h1
          · exact hdel h1
          · exact hne (List.mem_singleton.mp h1).symm

theorem MappedByHistory_calls (tr : List Event) (cs : List Call) (p : Nat) :
    MappedByHistory (tr ++ cs.map Event.call) p ↔ MappedByHistory tr p := by
  induction cs using List.reverseRecOn with
  | nil => simp
  | append_singleton cs c ih =>
    rw [List.map_append, ← List.append_assoc, List.map_singleton, MappedByHistory_snoc, ih]
    simp

theorem Consistent_init (pm : PortMapper) (h : pm.portsMapped = []) :
    Consistent (State.init pm) := by
  intro p
  constructor
  · intro hp
    simp [IsPortMapped_eq, State.init, h, SyncMap.Load] at hp
  · intro hp
    exact absurd hp (MappedByHistory_nil p)

theorem Consistent_Add (env : Env) (s : State) (port : Nat) (description : String)
    (hs : Consistent s) : Consistent (Add env s port description).2 := by
  obtain ⟨cs, htr, hpm⟩ := Add_effect env s port description
  intro p
  rw [htr, MappedByHistory_snoc, MappedByHistory_calls, ← hs p, hpm, IsPortMapped_eq,
    IsPortMapped_eq]
  cases hres : (Add env s port description).1 with
  | none =>
    simp only [if_true, Load_Store]
    by_cases hp : p = port
    · subst hp; simp
    · have hp2 : port ≠ p := fun e => hp e.symm
      simp [hp, hp2]
  | some e => simp

theorem Consistent_Delete (env : Env) (s : State) (port : Nat)
    (hs : Consistent s) : Consistent (Delete env s port).2 := by
  obtain ⟨cs, htr, hpm⟩ := Delete_effect env s port
  intro p
  rw [htr, MappedByHistory_snoc, MappedByHistory_calls, ← hs p, hpm, IsPortMapped_eq,
    IsPortMapped_eq]
  cases hres : (Delete env s port).1 with
  | none =>
    simp only [if_true, Load_Delete]
    by_cases hp : p = port
    · subst hp; simp
    · have hp2 : port ≠ p := fun e => hp e.symm
      simp [hp, hp2]
  | some e => simp

theorem Consistent_step (env : Env) (s : State) (op : Op) (hs : Consistent s) :
    Consistent (step env s op) := by
  cases op with
  | typeName => exact hs
  | isPortMapped port => exact hs
  | externalIP =>
    obtain ⟨cs, htr, hpm⟩ := ExternalIP_effect env s
    intro p
    simp only [step]
    rw [htr, MappedByHistory_calls, ← hs p, IsPortMapped_eq, IsPortMapped_eq, hpm]
  | add port description => exact Consistent_Add env s port description hs
  | delete port => exact Consistent_Delete env s port hs
  | deleteAll order =>
    exact DeleteAll_keeps env Consistent (fun s port h => Consistent_Delete env s port h)
      order s hs

theorem Consistent_run (env : Env) (ops : List Op) :
    ∀ s, Consistent s → Consistent (run env s ops) := by
  induction ops with
  | nil => intro s hs; exact hs
  | cons op ops ih =>
    intro s hs
    exact ih _ (Consistent_step env s op hs)

theorem Discover_registry_empty (upnp : Except String IGD) (pmp : Except String NAT)
    (pm : PortMapper) (h : (Discover upnp pmp).1 = some pm) : pm.portsMapped = [] := by
  unfold Discover at h
  cases upnp with
  | ok g => simp at h; rw [← h]; rfl
  | error e1 =>
    cases pmp with
    | ok n => simp at h; rw [← h]; rfl
    | error e2 => simp at h

theorem Discover_gateway_known (upnp : Except String IGD) (pmp : Except String NAT)
    (pm : PortMapper) (h : (Discover upnp pmp).1 = some pm) :
    (∃ g, pm.gateway = Gateway.igd g) ∨ (∃ n, pm.gateway = Gateway.nat n) := by
  unfold Discover at h
  cases upnp with
  | ok g => simp at h; rw [← h]; exact Or.inl ⟨g, rfl⟩
  | error e1 =>
    cases pmp with
    | ok n => simp at h; rw [← h]; exact Or.inr ⟨n, rfl⟩
    | error e2 => simp at h

/-! ## The gateway never changes -/

theorem Add_keeps_gateway (env : Env) (s : State) (port : Nat) (description : String) :
    (Add env s port description).2.pm.gateway = s.pm.gateway ∧
    (Add env s port description).2.pm.gatewayType = s.pm.gatewayType := by
  obtain ⟨cs, _, hpm⟩ := Add_effect env s port description
  rw [hpm]
  split <;> exact ⟨rfl, rfl⟩

theorem Delete_keeps_gateway (env : Env) (s : State) (port : Nat) :
    (Delete env s port).2.pm.gateway = s.pm.gateway ∧
    (Delete env s port).2.pm.gatewayType = s.pm.gatewayType := by
  obtain ⟨cs, _, hpm⟩ := Delete_effect env s port
  rw [hpm]
  split <;> exact ⟨rfl, rfl⟩

theorem step_keeps_gateway (env : Env) (s : State) (op : Op) :
    (step env s op).pm.gateway = s.pm.gateway ∧
    (step env s op).pm.gatewayType = s.pm.gatewayType := by
  cases op with
  | typeName => exact ⟨rfl, rfl⟩
  | isPortMapped port => exact ⟨rfl, rfl⟩
  | externalIP =>
    obtain ⟨cs, _, hpm⟩ := ExternalIP_effect env s
    simp only [step]
    rw [hpm]
    exact ⟨rfl, rfl⟩
  | add port description => exact Add_keeps_gateway env s port description
  | delete port => exact Delete_keeps_gateway env s port
  | deleteAll order =>
    exact DeleteAll_keeps env
      (fun s1 => s1.pm.gateway = s.pm.gateway ∧ s1.pm.gatewayType = s.pm.gatewayType)
      (fun s1 port h => by
        obtain ⟨h1, h2⟩ := Delete_keeps_gateway env s1 port
        exact ⟨h1.trans h.1, h2.trans h.2⟩)
      order s ⟨rfl, rfl⟩

theorem run_keeps_gateway (env : Env) (ops : List Op) :
    ∀ s, (run env s ops).pm.gateway = s.pm.gateway ∧
      (run env s ops).pm.gatewayType = s.pm.gatewayType := by
  induction ops with
  | nil => intro s; exact ⟨rfl, rfl⟩
  | cons op ops ih =>
    intro s
    obtain ⟨h1, h2⟩ := ih (step env s op)
    obtain ⟨h3, h4⟩ := step_keeps_gateway env s op
    exact ⟨h1.trans h3, h2.trans h4⟩

theorem Add_unknown_only (env : Env) (s : State) (port : Nat) (description t : String)
    (h : (Add env s port description).1 = some (Error.unknownGatewayType t)) :
    s.pm.gateway = Gateway.unknown := by
  cases hg : s.pm.gateway with
  | unknown => rfl
  | igd g =>
    rw [Add_igd env s g port description hg] at h
    cases hf : (env.respond s.trace (Call.igdForward port description)).err <;>
      simp [hf] at h
  | nat n =>
    rw [Add_nat env s n port description hg] at h
    simp only at h
    cases h1 : (env.respond s.trace (Call.natAddPortMapping "tcp" port port description
      (portMapDuration s.pm.gatewayType))).err with
    | some msg => simp [h1] at h
    | none =>
      cases h2 : (env.respond (s.trace ++ [Event.call (Call.natAddPortMapping "tcp" port
        port description (portMapDuration s.pm.gatewayType))])
        (Call.natAddPortMapping "udp" port port description
          (portMapDuration s.pm.gatewayType))).err <;> simp [h1, h2] at h

theorem Delete_unknown_only (env : Env) (s : State) (port : Nat) (t : String)
    (h : (Delete env s port).1 = some (Error.unknownGatewayType t)) :
    s.pm.gateway = Gateway.unknown := by
  cases hg : s.pm.gateway with
  | unknown => rfl
  | igd g =>
    rw [Delete_igd env s g port hg] at h
    cases hf : (env.respond s.trace (Call.igdClear port)).err <;> simp [hf] at h
  | nat n =>
    rw [Delete_nat env s n port hg] at h
    simp only at h
    cases h1 : (env.respond s.trace (Call.natDeletePortMapping "tcp" port)).err with
    | some msg => simp [h1] at h
    | none =>
      cases h2 : (env.respond (s.trace ++ [Event.call (Call.natDeletePortMapping "tcp" port)])
        (Call.natDeletePortMapping "udp" port)).err <;> simp [h1, h2] at h

theorem ExternalIP_unknown_only (env : Env) (s : State) (t : String)
    (h : (ExternalIP env s).1.2 = some (Error.unknownGatewayType t)) :
    s.pm.gateway = Gateway.unknown := by
  cases hg : s.pm.gateway with
  | unknown => rfl
  | igd g =>
    simp only [ExternalIP, hg, gatewayCall, Reply.error] at h
    cases hf : (env.respond s.trace Call.igdExternalIP).err <;> simp [hf] at h
  | nat n =>
    simp only [ExternalIP, hg, gatewayCall, Reply.error] at h
    cases hf : (env.respond s.trace Call.natGetExternalAddress).err <;> simp [hf] at h

/-! ## Discovery -/

/-- C2: `Discover` tries UPnP first.  When UPnP discovery succeeds (whatever
NAT-PMP discovery would give) the port mapper holds the UPnP handle and `Type()`
is `"UPnP"`; when UPnP fails and NAT-PMP/PCP discovery succeeds it holds that
handle and `Type()` is the name the client reports; when both fail the result is
the nil handle with the no-gateway error. -/
theorem Discover_upnp_first (g : IGD) (n : NAT) (e1 e2 : String)
    (pmp : Except String NAT) :
    (∃ pm, Discover (Except.ok g) pmp = (some pm, none) ∧
        pm.gateway = Gateway.igd g ∧ pm.TypeName = "UPnP") ∧
    (∃ pm, Discover (Except.error e1) (Except.ok n) = (some pm, none) ∧
        pm.gateway = Gateway.nat n ∧ pm.TypeName = n.typ) ∧
    Discover (Except.error e1) (Except.error e2) = (none, some Error.noGateway) := by
  refine ⟨⟨_, rfl, rfl, rfl⟩, ⟨_, rfl, rfl, rfl⟩, rfl⟩

/-! ## The lease requested from a NAT-PMP/PCP gateway -/

/-- C1, as stated, fails: on the port mapper discovered for a client that
reports `"PCP"`, `Add(51820, "wg")` issues both `AddPortMapping` calls with a
lifetime of zero, not of 31 536 000 seconds. -/
theorem Add_pcp_lifetime_zero :
    Discover (Except.error "no IGD") (Except.ok { id := 3, typ := "PCP" })
      = (some pcpMapper, none) ∧
    issued (State.init pcpMapper) (Add envOk (State.init pcpMapper) 51820 "wg").2 =
      [Call.natAddPortMapping "tcp" 51820 51820 "wg" 0,
       Call.natAddPortMapping "udp" 51820 51820 "wg" 0] ∧
    (0 : Duration) ≠ 31536000 * Second := by
  decide

/-- C1, amended: on a NAT-PMP/PCP gateway `Add(port, label)` issues at least one
call, every call it issues is an `AddPortMapping` for `port`, and each carries
the lifetime `portMapDuration[Type()]`, which is 31 536 000 seconds when the
protocol name is `"NAT-PMP"` and zero for every other name. -/
theorem Add_pmp_lifetime (env : Env) (s : State) (h : NAT) (port : Nat)
    (description : String) (hg : s.pm.gateway = Gateway.nat h) :
    issued s (Add env s port description).2 ≠ [] ∧
    (∀ c ∈ issued s (Add env s port description).2,
      ∃ protocol, c = Call.natAddPortMapping protocol port port description
        (portMapDuration s.pm.TypeName)) ∧
    portMapDuration s.pm.TypeName =
      (if s.pm.TypeName = "NAT-PMP" then 31536000 * Second else 0) := by
  refine ⟨?_, ?_, ?_⟩
  · rw [Add_nat env s h port description hg]
    simp only [issued]
    cases (env.respond s.trace (Call.natAddPortMapping "tcp" port port description
      (portMapDuration s.pm.gatewayType))).err
    · cases (env.respond (s.trace ++ [Event.call (Call.natAddPortMapping "tcp" port port
        description (portMapDuration s.pm.gatewayType))])
        (Call.natAddPortMapping "udp" port port description
          (portMapDuration s.pm.gatewayType))).err <;> simp [calls]
    · simp [calls]
  · rw [Add_nat env s h port description hg]
    simp only [issued, PortMapper.TypeName]
    cases (env.respond s.trace (Call.natAddPortMapping "tcp" port port description
      (portMapDuration s.pm.gatewayType))).err
    · cases (env.respond (s.trace ++ [Event.call (Call.natAddPortMapping "tcp" port port
        description (portMapDuration s.pm.gatewayType))])
        (Call.natAddPortMapping "udp" port port description
          (portMapDuration s.pm.gatewayType))).err <;> simp [calls]
    · simp [calls]
  · exact portMapDuration_eq s.pm.TypeName

/-- The amended C1 on the NAT-PMP mapper of scenario S2. -/
theorem Add_pmp_lifetime_witness :
    issued (State.init natpmpMapper) (Add envOk (State.init natpmpMapper) 51820 "wg").2 ≠ [] ∧
    (∀ c ∈ issued (State.init natpmpMapper) (Add envOk (State.init natpmpMapper) 51820 "wg").2,
      ∃ protocol, c = Call.natAddPortMapping protocol (51820 : Nat) (51820 : Nat) "wg"
        (portMapDuration (State.init natpmpMapper).pm.TypeName)) ∧
    portMapDuration (State.init natpmpMapper).pm.TypeName =
      (if (State.init natpmpMapper).pm.TypeName = "NAT-PMP" then 31536000 * Second else 0) :=
  Add_pmp_lifetime envOk (State.init natpmpMapper) { id := 2, typ := "NAT-PMP" } 51820 "wg" rfl

/-! ## `Add` -/

/-- C3: on either gateway variant `Add(p, l)` returns success exactly when every
gateway call it issues succeeds (`Forward`; the TCP, then the UDP
`AddPortMapping`).  On success the registry is the prior one with `p` mapped to
`l`, every other port unchanged; on a failure (`Forward`, the TCP call, or the
UDP call after a TCP success) `Add` returns that gateway error and the registry
is the prior registry. -/
theorem Add_registry (env : Env) (s : State) (port : Nat) (description : String) :
    (∀ h, s.pm.gateway = Gateway.igd h →
      let fwd := env.respond s.trace (Call.igdForward port description)
      let res := Add env s port description
      (res.1 = none ↔ fwd.err = none) ∧
      (fwd.err = none →
        res.2.pm.portsMapped = SyncMap.Store s.pm.portsMapped port description) ∧
      (∀ msg, fwd.err = some msg →
        res.1 = some (Error.client msg) ∧ res.2.pm.portsMapped = s.pm.portsMapped)) ∧
    (∀ h, s.pm.gateway = Gateway.nat h →
      let tcpCall := Call.natAddPortMapping "tcp" port port description
        (portMapDuration s.pm.TypeName)
      let udpCall := Call.natAddPortMapping "udp" port port description
        (portMapDuration s.pm.TypeName)
      let tcp := env.respond s.trace tcpCall
      let udp := env.respond (s.trace ++ [Event.call tcpCall]) udpCall
      let res := Add env s port description
      (res.1 = none ↔ tcp.err = none ∧ udp.err = none) ∧
      (tcp.err = none → udp.err = none →
        res.2.pm.portsMapped = SyncMap.Store s.pm.portsMapped port description) ∧
      (∀ msg, tcp.err = some msg →
        res.1 = some (Error.client msg) ∧ res.2.pm.portsMapped = s.pm.portsMapped) ∧
      (∀ msg, tcp.err = none → udp.err = some msg →
        res.1 = some (Error.client msg) ∧ res.2.pm.portsMapped = s.pm.portsMapped)) ∧
    (∀ q, SyncMap.Load (SyncMap.Store s.pm.portsMapped port description) q =
      if q = port then some description else SyncMap.Load s.pm.portsMapped q) := by
  refine ⟨?_, ?_, fun q => Load_Store _ _ _ _⟩
  · intro h hg
    simp only [Add_igd env s h port description hg]
    cases (env.respond s.trace (Call.igdForward port description)).err <;> simp
  · intro h hg
    simp only [Add_nat env s h port description hg, PortMapper.TypeName]
    cases (env.respond s.trace (Call.natAddPortMapping "tcp" port port description
      (portMapDuration s.pm.gatewayType))).err
    · cases (env.respond (s.trace ++ [Event.call (Call.natAddPortMapping "tcp" port port
        description (portMapDuration s.pm.gatewayType))])
        (Call.natAddPortMapping "udp" port port description
          (portMapDuration s.pm.gatewayType))).err <;> simp
    · simp

/-- C3 on scenario S6 (a re-add with a new label on a UPnP gateway that accepts)
and on a NAT-PMP gateway whose UDP half fails. -/
theorem Add_registry_witness :
    ((Add envOk upnpWith8333 8333 "relay").2.pm.portsMapped = [(8333, "relay")]) ∧
    ((Add envUdpFails (State.init natpmpMapper) 51820 "wg").1
        = some (Error.client "udp refused") ∧
      (Add envUdpFails (State.init natpmpMapper) 51820 "wg").2.pm.portsMapped = []) :=
  ⟨((Add_registry envOk upnpWith8333 8333 "relay").1 { id := 1 } rfl).2.1 rfl,
   ((Add_registry envUdpFails (State.init natpmpMapper) 51820 "wg").2.1
      { id := 2, typ := "NAT-PMP" } rfl).2.2.2 "udp refused" rfl rfl⟩

/-- C4, as stated, fails: once `Add(22, "ssh")` has succeeded on a discovered
UPnP mapper, a second `Add(22, _)` that returns the error of `Forward` leaves
port 22 in the registry, so `IsPortMapped(22)` is true right after the failed
`Add`. -/
theorem Add_error_port_still_mapped :
    Discover (Except.ok { id := 1 }) (Except.error "no NAT-PMP gateway")
      = (some upnpMapper, none) ∧
    (Add envAcceptsOnce (State.init upnpMapper) 22 "ssh").1 = none ∧
    (Add envAcceptsOnce (Add envAcceptsOnce (State.init upnpMapper) 22 "ssh").2 22 "sshd").1
      = some (Error.client "router refused") ∧
    IsPortMapped
      (Add envAcceptsOnce (Add envAcceptsOnce (State.init upnpMapper) 22 "ssh").2
        22 "sshd").2.pm 22 = true := by
  decide

/-- C4, amended: when `Add(p, label)` returns an error the registry is exactly
the prior registry, so `IsPortMapped` answers as it did before the call for
every port; in particular `IsPortMapped(p)` is false after the failed `Add`
when `p` was not in the registry before it. -/
theorem Add_error_registry_unchanged (env : Env) (s : State) (port : Nat)
    (description : String) (e : Error) (herr : (Add env s port description).1 = some e) :
    (Add env s port description).2.pm.portsMapped = s.pm.portsMapped ∧
    (∀ q, IsPortMapped (Add env s port description).2.pm q = IsPortMapped s.pm q) ∧
    (IsPortMapped s.pm port = false →
      IsPortMapped (Add env s port description).2.pm port = false) := by
  have hreg : (Add env s port description).2.pm.portsMapped = s.pm.portsMapped := by
    cases hg : s.pm.gateway with
    | unknown => rw [Add_unknown env s port description hg]
    | igd h =>
      rw [Add_igd env s h port description hg] at herr ⊢
      cases hf : (env.respond s.trace (Call.igdForward port description)).err with
      | none => simp [hf] at herr
      | some msg => simp
    | nat h =>
      rw [Add_nat env s h port description hg] at herr ⊢
      simp only at herr ⊢
      cases h1 : (env.respond s.trace (Call.natAddPortMapping "tcp" port port description
        (portMapDuration s.pm.gatewayType))).err with
      | some msg => simp
      | none =>
        cases h2 : (env.respond (s.trace ++ [Event.call (Call.natAddPortMapping "tcp" port
          port description (portMapDuration s.pm.gatewayType))])
          (Call.natAddPortMapping "udp" port port description
            (portMapDuration s.pm.gatewayType))).err with
        | some msg => simp
        | none => simp [h1, h2] at herr
  have hall : ∀ q, IsPortMapped (Add env s port description).2.pm q = IsPortMapped s.pm q := by
    intro q
    rw [IsPortMapped_eq, IsPortMapped_eq, hreg]
  exact ⟨hreg, hall, fun h0 => by rw [hall]; exact h0⟩

/-- The amended C4 on scenario S3: `Forward` answers "router refused" for
`Add(22, "ssh")` on an empty registry. -/
theorem Add_error_registry_unchanged_witness :
    (Add envRefuse (State.init upnpMapper) 22 "ssh").1
      = some (Error.client "router refused") ∧
    IsPortMapped (Add envRefuse (State.init upnpMapper) 22 "ssh").2.pm 22 = false :=
  ⟨by decide,
   (Add_error_registry_unchanged envRefuse (State.init upnpMapper) 22 "ssh"
      (Error.client "router refused") (by decide)).2.2 (by decide)⟩

/-! ## The calls issued on a NAT-PMP/PCP gateway -/

/-- C5: on a NAT-PMP/PCP gateway a successful `Add(p, l)` issues exactly
`AddPortMapping("tcp", p, p, l, _)` then `AddPortMapping("udp", p, p, l, _)`,
and when the TCP call fails it issues the TCP call only; a successful
`Delete(p)` issues exactly `DeletePortMapping("tcp", p)` then
`DeletePortMapping("udp", p)`, and when the TCP delete fails it issues the TCP
delete only. -/
theorem pmp_calls_in_order (env : Env) (s : State) (h : NAT) (port : Nat)
    (description : String) (hg : s.pm.gateway = Gateway.nat h) :
    let tcpAdd := Call.natAddPortMapping "tcp" port port description
      (portMapDuration s.pm.TypeName)
    let udpAdd := Call.natAddPortMapping "udp" port port description
      (portMapDuration s.pm.TypeName)
    let tcpDel := Call.natDeletePortMapping "tcp" port
    let udpDel := Call.natDeletePortMapping "udp" port
    ((Add env s port description).1 = none →
      (Add env s port description).2.trace =
        s.trace ++ [Event.call tcpAdd, Event.call udpAdd, Event.addReturned port none] ∧
      issued s (Add env s port description).2 = [tcpAdd, udpAdd]) ∧
    (∀ msg, (env.respond s.trace tcpAdd).err = some msg →
      (Add env s port description).2.trace =
        s.trace ++ [Event.call tcpAdd, Event.addReturned port (some (Error.client msg))] ∧
      issued s (Add env s port description).2 = [tcpAdd]) ∧
    ((Delete env s port).1 = none →
      (Delete env s port).2.trace =
        s.trace ++ [Event.call tcpDel, Event.call udpDel, Event.deleteReturned port none] ∧
      issued s (Delete env s port).2 = [tcpDel, udpDel]) ∧
    (∀ msg, (env.respond s.trace tcpDel).err = some msg →
      (Delete env s port).2.trace =
        s.trace ++ [Event.call tcpDel, Event.deleteReturned port (some (Error.client msg))] ∧
      issued s (Delete env s port).2 = [tcpDel]) := by
  simp only [Add_nat env s h port description hg, Delete_nat env s h port hg,
    PortMapper.TypeName, issued]
  refine ⟨?_, ?_, ?_, ?_⟩
  · cases (env.respond s.trace (Call.natAddPortMapping "tcp" port port description
      (portMapDuration s.pm.gatewayType))).err
    · cases (env.respond (s.trace ++ [Event.call (Call.natAddPortMapping "tcp" port port
        description (portMapDuration s.pm.gatewayType))])
        (Call.natAddPortMapping "udp" port port description
          (portMapDuration s.pm.gatewayType))).err <;> simp [calls]
    · simp
  · intro msg hmsg
    simp [hmsg, calls]
  · cases (env.respond s.trace (Call.natDeletePortMapping "tcp" port)).err
    · cases (env.respond (s.trace ++ [Event.call (Call.natDeletePortMapping "tcp" port)])
        (Call.natDeletePortMapping "udp" port)).err <;> simp [calls]
    · simp
  · intro msg hmsg
    simp [hmsg, calls]

/-- C5 on scenario S2: `Add(51820, "wg")` on the NAT-PMP mapper. -/
theorem pmp_calls_in_order_witness :
    issued (State.init natpmpMapper) (Add envOk (State.init natpmpMapper) 51820 "wg").2 =
      [Call.natAddPortMapping "tcp" (51820 : Nat) (51820 : Nat) "wg"
          (portMapDuration (State.init natpmpMapper).pm.TypeName),
       Call.natAddPortMapping "udp" (51820 : Nat) (51820 : Nat) "wg"
          (portMapDuration (State.init natpmpMapper).pm.TypeName)] ∧
    issued (State.init natpmpMapper) (Delete envOk (State.init natpmpMapper) 51820).2 =
      [Call.natDeletePortMapping "tcp" (51820 : Nat),
       Call.natDeletePortMapping "udp" (51820 : Nat)] :=
  ⟨((pmp_calls_in_order envOk (State.init natpmpMapper) { id := 2, typ := "NAT-PMP" }
      51820 "wg" rfl).1 (by decide)).2,
   ((pmp_calls_in_order envOk (State.init natpmpMapper) { id := 2, typ := "NAT-PMP" }
      51820 "wg" rfl).2.2.1 (by decide)).2⟩

/-! ## `Delete` -/

/-- C6: on either gateway variant `Delete(p)` returns success exactly when every
gateway call it issues succeeds (`Clear`; the TCP, then the UDP
`DeletePortMapping`).  On success the registry is the prior one with `p`
removed: `IsPortMapped(p)` is false, every other port is unchanged, and a `p`
that was absent leaves the registry as it was.  On a failure (`Clear`, the TCP
delete, or the UDP delete after a TCP success) `Delete` returns that gateway
error and the registry is the prior registry, so a mapped `p` stays mapped. -/
theorem Delete_registry (env : Env) (s : State) (port : Nat) :
    (∀ h, s.pm.gateway = Gateway.igd h →
      let clr := env.respond s.trace (Call.igdClear port)
      let res := Delete env s port
      (res.1 = none ↔ clr.err = none) ∧
      (clr.err = none →
        res.2.pm.portsMapped = SyncMap.Delete s.pm.portsMapped port ∧
        IsPortMapped res.2.pm port = false) ∧
      (∀ msg, clr.err = some msg →
        res.1 = some (Error.client msg) ∧ res.2.pm.portsMapped = s.pm.portsMapped ∧
        IsPortMapped res.2.pm port = IsPortMapped s.pm port)) ∧
    (∀ h, s.pm.gateway = Gateway.nat h →
      let tcpCall := Call.natDeletePortMapping "tcp" port
      let udpCall := Call.natDeletePortMapping "udp" port
      let tcp := env.respond s.trace tcpCall
      let udp := env.respond (s.trace ++ [Event.call tcpCall]) udpCall
      let res := Delete env s port
      (res.1 = none ↔ tcp.err = none ∧ udp.err = none) ∧
      (tcp.err = none → udp.err = none →
        res.2.pm.portsMapped = SyncMap.Delete s.pm.portsMapped port ∧
        IsPortMapped res.2.pm port = false) ∧
      (∀ msg, tcp.err = some msg →
        res.1 = some (Error.client msg) ∧ res.2.pm.portsMapped = s.pm.portsMapped ∧
        IsPortMapped res.2.pm port = IsPortMapped s.pm port) ∧
      (∀ msg, tcp.err = none → udp.err = some msg →
        res.1 = some (Error.client msg) ∧ res.2.pm.portsMapped = s.pm.portsMapped ∧
        IsPortMapped res.2.pm port = IsPortMapped s.pm port)) ∧
    (∀ q, SyncMap.Load (SyncMap.Delete s.pm.portsMapped port) q =
      if q = port then none else SyncMap.Load s.pm.portsMapped q) ∧
    (IsPortMapped s.pm port = false → SyncMap.Delete s.pm.portsMapped port = s.pm.portsMapped) := by
  refine ⟨?_, ?_, fun q => Load_Delete _ _ _, ?_⟩
  · intro h hg
    simp only [Delete_igd env s h port hg]
    cases (env.respond s.trace (Call.igdClear port)).err <;>
      simp [IsPortMapped_eq, Load_Delete]
  · intro h hg
    simp only [Delete_nat env s h port hg]
    cases (env.respond s.trace (Call.natDeletePortMapping "tcp" port)).err
    · cases (env.respond (s.trace ++ [Event.call (Call.natDeletePortMapping "tcp" port)])
        (Call.natDeletePortMapping "udp" port)).err <;>
        simp [IsPortMapped_eq, Load_Delete]
    · simp [IsPortMapped_eq, Load_Delete]
  · intro h0
    apply Delete_absent
    rw [IsPortMapped_eq] at h0
    cases hl : SyncMap.Load s.pm.portsMapped port with
    | none => rfl
    | some v => simp [hl] at h0

/-- C6 on a UPnP gateway that clears port 8333, and on a NAT-PMP gateway whose
UDP delete fails while port 51820 is mapped. -/
theorem Delete_registry_witness :
    ((Delete envOk upnpWithTwo 8333).2.pm.portsMapped = [(8334, "rpc")]) ∧
    ((Delete envUdpFails natpmpWith51820 51820).1 = some (Error.client "udp refused") ∧
     IsPortMapped (Delete envUdpFails natpmpWith51820 51820).2.pm 51820 = true) :=
  ⟨(((Delete_registry envOk upnpWithTwo 8333).1 { id := 1 } rfl).2.1 rfl).1,
   ⟨(((Delete_registry envUdpFails natpmpWith51820 51820).2.1
      { id := 2, typ := "NAT-PMP" } rfl).2.2.2 "udp refused" rfl rfl).1,
    (((Delete_registry envUdpFails natpmpWith51820 51820).2.1
      { id := 2, typ := "NAT-PMP" } rfl).2.2.2 "udp refused" rfl rfl).2.2⟩⟩

/-! ## `ExternalIP` -/

/-- C8: `ExternalIP` leaves the port mapper (registry included) as it was.  On
the UPnP variant it returns the string and the error of the IGD client's
`ExternalIP`; on the NAT-PMP/PCP variant it returns the printable form of the
address given by `GetExternalAddress` together with that call's error, and an
error given by the client is returned whatever the address. -/
theorem ExternalIP_dispatch (env : Env) (s : State) :
    (ExternalIP env s).2.pm = s.pm ∧
    (∀ h, s.pm.gateway = Gateway.igd h →
      let r := env.respond s.trace Call.igdExternalIP
      (ExternalIP env s).1 = (r.text, r.err.map Error.client) ∧
      issued s (ExternalIP env s).2 = [Call.igdExternalIP]) ∧
    (∀ h, s.pm.gateway = Gateway.nat h →
      let r := env.respond s.trace Call.natGetExternalAddress
      (ExternalIP env s).1 = (env.ipString r.addr, r.err.map Error.client) ∧
      issued s (ExternalIP env s).2 = [Call.natGetExternalAddress] ∧
      (∀ msg, r.err = some msg → (ExternalIP env s).1.2 = some (Error.client msg))) := by
  refine ⟨?_, ?_, ?_⟩
  · unfold ExternalIP
    cases s.pm.gateway <;> simp [gatewayCall]
  · intro h hg
    simp [ExternalIP, hg, gatewayCall, Reply.error, issued, calls]
  · intro h hg
    simp only [ExternalIP, hg, gatewayCall, Reply.error, issued]
    refine ⟨trivial, by simp [calls], ?_⟩
    intro msg hmsg
    simp [hmsg]

/-- C8 on scenarios S1 and S2. -/
theorem ExternalIP_dispatch_witness :
    (ExternalIP envOk (State.init upnpMapper)).1 = ("203.0.113.7", none) ∧
    (ExternalIP envOk (State.init natpmpMapper)).1 = ("203.0.113.42", none) ∧
    (ExternalIP envRefuse (State.init natpmpMapper)).1.2
      = some (Error.client "router refused") :=
  ⟨((ExternalIP_dispatch envOk (State.init upnpMapper)).2.1 { id := 1 } rfl).1,
   ((ExternalIP_dispatch envOk (State.init natpmpMapper)).2.2
      { id := 2, typ := "NAT-PMP" } rfl).1,
   ((ExternalIP_dispatch envRefuse (State.init natpmpMapper)).2.2
      { id := 2, typ := "NAT-PMP" } rfl).2.2 "router refused" rfl⟩

/-! ## `DeleteAll` -/

/-- C7: let `order` be the order in which the ports of the registry are visited.
`DeleteAll` calls `Delete` on the ports in that order.  If the deletes of
`visited` all succeed and the `Delete` of the next port `pk` returns an error,
`DeleteAll` returns that error in the state that failed `Delete` left: the
registry is the prior one minus exactly `visited` (so `pk` and the unvisited
ports are still mapped) and the `Delete` invocations made are those of `visited`
followed by `pk`, none for a later port.  If every `Delete` succeeds,
`DeleteAll` returns success, invoked `Delete` on all of `order`, and the
registry is empty.  One of the two cases always applies. -/
theorem DeleteAll_stops_at_first_error (env : Env) (s : State) (order : List Nat)
    (hnd : order.Nodup) (hkeys : ∀ p, p ∈ order ↔ IsPortMapped s.pm p = true) :
    (∀ visited pk rest s1 e, order = visited ++ pk :: rest →
      DeletesSucceed env s visited s1 → (Delete env s1 pk).1 = some e →
      DeleteAll env s order = (some e, (Delete env s1 pk).2) ∧
      (DeleteAll env s order).2.pm.portsMapped =
        visited.foldl SyncMap.Delete s.pm.portsMapped ∧
      (∀ q, SyncMap.Load (DeleteAll env s order).2.pm.portsMapped q =
        if q ∈ visited then none else SyncMap.Load s.pm.portsMapped q) ∧
      (∀ q ∈ pk :: rest, IsPortMapped (DeleteAll env s order).2.pm q = true) ∧
      deletesOf (DeleteAll env s order).2.trace = deletesOf s.trace ++ visited ++ [pk]) ∧
    (∀ s1, DeletesSucceed env s order s1 →
      DeleteAll env s order = (none, s1) ∧
      s1.pm.portsMapped = [] ∧
      deletesOf s1.trace = deletesOf s.trace ++ order) ∧
    ((∃ s1, DeletesSucceed env s order s1) ∨
      (∃ visited pk rest s1 e, order = visited ++ pk :: rest ∧
        DeletesSucceed env s visited s1 ∧ (Delete env s1 pk).1 = some e)) := by
  refine ⟨?_, ?_, DeletesSucceed_or_fails env order s⟩
  · intro visited pk rest s1 e horder hs hfail
    subst horder
    have hmap : ∀ q ∈ visited ++ pk :: rest, IsPortMapped s.pm q = true :=
      fun q hq => (hkeys q).mp hq
    obtain ⟨h1, h2, h3⟩ :=
      DeleteAll_after_successes env visited s s1 (pk :: rest) hmap hnd hs
    have hpk : pk ∉ visited := by
      intro hin
      have := List.nodup_append.mp hnd
      exact this.2.2 hin (List.mem_cons_self _ _)
    have hload1 : ∀ q, SyncMap.Load s1.pm.portsMapped q =
        if q ∈ visited then none else SyncMap.Load s.pm.portsMapped q := by
      intro q; rw [h2]; exact Load_foldl_Delete visited _ q
    have hpk1 : (SyncMap.Load s1.pm.portsMapped pk).isSome = true := by
      rw [hload1, if_neg hpk, ← IsPortMapped_eq]
      exact hmap pk (by simp)
    have hres : DeleteAll env s (visited ++ pk :: rest) = (some e, (Delete env s1 pk).2) := by
      rw [h1, DeleteAll_cons]
      cases hl : SyncMap.Load s1.pm.portsMapped pk with
      | none => simp [hl] at hpk1
      | some v => simp only [hfail]
    have hpm : (Delete env s1 pk).2.pm = s1.pm := Delete_err_pm env s1 pk e hfail
    refine ⟨hres, ?_, ?_, ?_, ?_⟩
    · rw [hres]; simp only; rw [hpm, h2]
    · intro q; rw [hres]; simp only; rw [hpm]; exact hload1 q
    · intro q hq
      rw [hres]; simp only
      rw [IsPortMapped_eq, hpm, hload1]
      have hqv : q ∉ visited := by
        intro hin
        exact (List.nodup_append.mp hnd).2.2 hin hq
      rw [if_neg hqv, ← IsPortMapped_eq]
      exact hmap q (List.mem_append_right _ hq)
    · rw [hres]; simp only
      rw [Delete_deletesOf, h3]
  · intro s1 hs
    have hmap : ∀ q ∈ order ++ [], IsPortMapped s.pm q = true :=
      fun q hq => (hkeys q).mp (by simpa using hq)
    obtain ⟨h1, h2, h3⟩ :=
      DeleteAll_after_successes env order s s1 [] hmap (by simpa using hnd) hs
    refine ⟨?_, ?_, h3⟩
    · rw [List.append_nil] at h1
      rw [h1, DeleteAll_nil]
    · rw [h2]
      apply foldl_Delete_eq_nil
      intro kv hkv
      apply (hkeys kv.1).mpr
      rw [IsPortMapped_eq]
      exact Load_of_mem _ kv.1 kv.2 hkv

/-- C7 on scenario S4: ports 1000, 1001, 1002 visited in that order on a UPnP
gateway whose `Clear` fails for 1001. -/
theorem DeleteAll_stops_at_first_error_witness :
    (DeleteAll envClear1001Fails upnpWithThree [1000, 1001, 1002]).1
      = some (Error.client "clear failed") ∧
    (DeleteAll envClear1001Fails upnpWithThree [1000, 1001, 1002]).2.pm.portsMapped
      = [(1001, "b"), (1002, "c")] ∧
    deletesOf (DeleteAll envClear1001Fails upnpWithThree [1000, 1001, 1002]).2.trace
      = [1000, 1001] := by
  have hkeys : ∀ p, p ∈ [1000, 1001, 1002] ↔ IsPortMapped upnpWithThree.pm p = true := by
    intro p
    simp only [IsPortMapped_eq, upnpWithThree, upnpMapper, SyncMap.Load, List.lookup_cons,
      List.lookup_nil]
    by_cases h0 : p = 1000
    · subst h0; simp
    · by_cases h1 : p = 1001
      · subst h1; simp
      · by_cases h2 : p = 1002
        · subst h2; simp
        · have b0 : (p == 1000) = false := by simpa using h0
          have b1 : (p == 1001) = false := by simpa using h1
          have b2 : (p == 1002) = false := by simpa using h2
          simp [h0, h1, h2, b0, b1, b2]
  have h := (DeleteAll_stops_at_first_error envClear1001Fails upnpWithThree
    [1000, 1001, 1002] (by decide) hkeys).1 [1000] 1001 [1002]
    (Delete envClear1001Fails upnpWithThree 1000).2 (Error.client "clear failed") rfl
    ⟨by decide, rfl⟩ (by decide)
  refine ⟨?_, ?_, ?_⟩
  · rw [h.1]
  · rw [h.2.1]; decide
  · rw [h.2.2.2.2]; decide

/-! ## Reachable states -/

/-- C9: the port mapper returned by `Discover` has an empty registry, and after
any finite sequence of `Add`, `Delete`, `DeleteAll`, `ExternalIP`, `Type` and
`IsPortMapped` calls, whatever the gateway answers, `IsPortMapped(p)` is true
if and only if some `Add(p, _)` returned success and no `Delete` of `p` (called
directly or by `DeleteAll`) returned success after the most recent such `Add`. -/
theorem registry_matches_history (env : Env) (upnp : Except String IGD)
    (pmp : Except String NAT) (pm : PortMapper)
    (hd : (Discover upnp pmp).1 = some pm) (ops : List Op) (p : Nat) :
    pm.portsMapped = [] ∧
    (IsPortMapped (run env (State.init pm) ops).pm p = true ↔
      MappedByHistory (run env (State.init pm) ops).trace p) :=
  ⟨Discover_registry_empty upnp pmp pm hd,
   Consistent_run env ops (State.init pm)
    (Consistent_init pm (Discover_registry_empty upnp pmp pm hd)) p⟩

/-- C9 on a UPnP gateway whose `Clear` fails for 1001: after three adds, a
`DeleteAll` that stops at 1001 and a direct delete of 1002, port 1001 is mapped
according to the history and port 1000 is not. -/
theorem registry_matches_history_witness :
    MappedByHistory
      (run envClear1001Fails (State.init upnpMapper)
        [Op.add 1000 "a", Op.add 1001 "b", Op.add 1002 "c",
         Op.deleteAll [1000, 1001, 1002], Op.delete 1002]).trace 1001 ∧
    ¬ MappedByHistory
      (run envClear1001Fails (State.init upnpMapper)
        [Op.add 1000 "a", Op.add 1001 "b", Op.add 1002 "c",
         Op.deleteAll [1000, 1001, 1002], Op.delete 1002]).trace 1000 :=
  ⟨(registry_matches_history envClear1001Fails (Except.ok { id := 1 })
      (Except.error "no NAT-PMP gateway") upnpMapper rfl
      [Op.add 1000 "a", Op.add 1001 "b", Op.add 1002 "c",
       Op.deleteAll [1000, 1001, 1002], Op.delete 1002] 1001).2.mp (by decide),
   fun h => absurd
    ((registry_matches_history envClear1001Fails (Except.ok { id := 1 })
      (Except.error "no NAT-PMP gateway") upnpMapper rfl
      [Op.add 1000 "a", Op.add 1001 "b", Op.add 1002 "c",
       Op.deleteAll [1000, 1001, 1002], Op.delete 1002] 1000).2.mpr h) (by decide)⟩

/-- C10: a port mapper returned by a successful `Discover` holds one of the two
known gateway variants; no operation changes the gateway or the protocol name;
hence after any sequence of operations `Add`, `Delete` and `ExternalIP` never
return the unknown-gateway-type error.  That error is returned only by a port
mapper whose gateway is neither variant (the zero value is one), and then
without any gateway call and with the port mapper unchanged. -/
theorem unknown_gateway_unreachable (env : Env) (upnp : Except String IGD)
    (pmp : Except String NAT) (pm : PortMapper)
    (hd : (Discover upnp pmp).1 = some pm) (ops : List Op) :
    ((∃ g, pm.gateway = Gateway.igd g) ∨ (∃ n, pm.gateway = Gateway.nat n)) ∧
    (∀ (s : State) (op : Op), (step env s op).pm.gateway = s.pm.gateway ∧
      (step env s op).pm.gatewayType = s.pm.gatewayType) ∧
    ((run env (State.init pm) ops).pm.gateway = pm.gateway ∧
      (run env (State.init pm) ops).pm.TypeName = pm.TypeName) ∧
    (∀ port description t, (Add env (run env (State.init pm) ops) port description).1
      ≠ some (Error.unknownGatewayType t)) ∧
    (∀ port t, (Delete env (run env (State.init pm) ops) port).1
      ≠ some (Error.unknownGatewayType t)) ∧
    (∀ t, (ExternalIP env (run env (State.init pm) ops)).1.2
      ≠ some (Error.unknownGatewayType t)) ∧
    (∀ (s : State) port description t,
      ((Add env s port description).1 = some (Error.unknownGatewayType t) ∨
        (Delete env s port).1 = some (Error.unknownGatewayType t) ∨
        (ExternalIP env s).1.2 = some (Error.unknownGatewayType t)) →
      s.pm.gateway = Gateway.unknown) ∧
    (∀ (s : State) port description, s.pm.gateway = Gateway.unknown →
      ((Add env s port description).1 = some (Error.unknownGatewayType s.pm.TypeName) ∧
        issued s (Add env s port description).2 = [] ∧
        (Add env s port description).2.pm = s.pm) ∧
      ((Delete env s port).1 = some (Error.unknownGatewayType s.pm.TypeName) ∧
        issued s (Delete env s port).2 = [] ∧
        (Delete env s port).2.pm = s.pm) ∧
      (ExternalIP env s = (("", some (Error.unknownGatewayType s.pm.TypeName)), s))) ∧
    PortMapper.zero.gateway = Gateway.unknown := by
  have hknown := Discover_gateway_known upnp pmp pm hd
  have hrun := run_keeps_gateway env ops (State.init pm)
  have hne : (run env (State.init pm) ops).pm.gateway ≠ Gateway.unknown := by
    rw [hrun.1]
    intro hc
    simp only [State.init] at hc
    rcases hknown with ⟨g, hg⟩ | ⟨n, hn⟩
    · rw [hg] at hc; cases hc
    · rw [hn] at hc; cases hc
  refine ⟨hknown, step_keeps_gateway env, hrun, ?_, ?_, ?_, ?_, ?_, rfl⟩
  · intro port description t hc
    exact hne (Add_unknown_only env _ port description t hc)
  · intro port t hc
    exact hne (Delete_unknown_only env _ port t hc)
  · intro t hc
    exact hne (ExternalIP_unknown_only env _ t hc)
  · intro s port description t h
    rcases h with h | h | h
    · exact Add_unknown_only env s port description t h
    · exact Delete_unknown_only env s port t h
    · exact ExternalIP_unknown_only env s t h
  · intro s port description hg
    refine ⟨?_, ?_, ?_⟩
    · rw [Add_unknown env s port description hg]
      simp [issued, calls, PortMapper.TypeName]
    · rw [Delete_unknown env s port hg]
      simp [issued, calls, PortMapper.TypeName]
    · simp [ExternalIP, hg]

/-- C10 on the NAT-PMP mapper after an add, a bulk teardown and a query: the
gateway is still the discovered one and `Add` answers with the gateway's own
error, not with the unknown-gateway-type error. -/
theorem unknown_gateway_unreachable_witness :
    (run envRefuse (State.init natpmpMapper)
        [Op.add 51820 "wg", Op.deleteAll [51820], Op.externalIP]).pm.gateway
      = natpmpMapper.gateway ∧
    (Add envRefuse (run envRefuse (State.init natpmpMapper)
        [Op.add 51820 "wg", Op.deleteAll [51820], Op.externalIP]) 51820 "wg").1
      ≠ some (Error.unknownGatewayType "NAT-PMP") :=
  ⟨(unknown_gateway_unreachable envRefuse (Except.error "no IGD")
      (Except.ok { id := 2, typ := "NAT-PMP" }) natpmpMapper rfl
      [Op.add 51820 "wg", Op.deleteAll [51820], Op.externalIP]).2.2.1.1,
   (unknown_gateway_unreachable envRefuse (Except.error "no IGD")
      (Except.ok { id := 2, typ := "NAT-PMP" }) natpmpMapper rfl
      [Op.add 51820 "wg", Op.deleteAll [51820], Op.externalIP]).2.2.2.1 51820 "wg" "NAT-PMP"⟩

end Portmapper
